import Mathlib

/-!
Verification development for the responsive scaling core of the
race-display repository (module responsiveScaling.js and its consumers).

The JavaScript functions are embedded shallowly: numeric values become
rationals, the DOM measurement surface becomes an explicit oracle of
successive (scrollWidth, scrollHeight) readings, and the debounced
observer becomes a discrete-event state machine.
-/

namespace RaceDisplay

/-! ## Dimension solver (getOptimalDimensions) -/

inductive Orientation where
  | landscape
  | portrait
deriving DecidableEq, Repr

inductive OrientationPref where
  | landscape
  | portrait
  | auto
deriving DecidableEq, Repr

/-- BASE_DIMENSIONS in the source: width 1920. -/
def baseWidth : ℚ := 1920

/-- BASE_DIMENSIONS in the source: height 1080. -/
def baseHeight : ℚ := 1080

/-- BASE_DIMENSIONS.aspectRatio = 16/9 in the source. -/
def baseAspect : ℚ := 16 / 9

structure Dimensions where
  width : ℚ
  height : ℚ
  scale : ℚ
  orientation : Orientation
  offsetX : ℚ
  offsetY : ℚ
deriving DecidableEq, Repr

/-- Shared tail of getOptimalDimensions: the source computes
scale = min(targetWidth / BASE_DIMENSIONS.width, targetHeight / BASE_DIMENSIONS.height)
and the centering offsets after the orientation branch. -/
def mkDimensions (viewportWidth viewportHeight : ℚ) (target : ℚ × ℚ)
    (o : Orientation) : Dimensions :=
  { width := target.1
    height := target.2
    scale := min (target.1 / baseWidth) (target.2 / baseHeight)
    orientation := o
    offsetX := (viewportWidth - target.1) / 2
    offsetY := (viewportHeight - target.2) / 2 }

/-- Embedding of getOptimalDimensions(viewportWidth, viewportHeight, forceOrientation).
forceOrientation null in the source corresponds to OrientationPref.auto. -/
def getOptimalDimensions (viewportWidth viewportHeight : ℚ)
    (forceOrientation : OrientationPref) : Dimensions :=
  let currentAspect := viewportWidth / viewportHeight
  if forceOrientation = OrientationPref.landscape ∨
      (forceOrientation = OrientationPref.auto ∧ 1 < currentAspect) then
    if baseAspect ≤ currentAspect then
      mkDimensions viewportWidth viewportHeight
        (viewportHeight * baseAspect, viewportHeight) Orientation.landscape
    else
      mkDimensions viewportWidth viewportHeight
        (viewportWidth, viewportWidth / baseAspect) Orientation.landscape
  else
    if baseHeight / baseWidth ≤ currentAspect then
      mkDimensions viewportWidth viewportHeight
        (viewportHeight * (baseHeight / baseWidth), viewportHeight) Orientation.portrait
    else
      mkDimensions viewportWidth viewportHeight
        (viewportWidth, viewportWidth / (baseHeight / baseWidth)) Orientation.portrait

/-! ## Scale properties (pixelsToViewport, generateScaleProperties spacing ladder) -/

inductive CssUnit where
  | vw
  | vh
  | vmin
  | vmax
deriving DecidableEq, Repr

/-- The source tests unit.includes(h): true exactly for the vh unit string. -/
def unitIncludesH : CssUnit → Bool
  | CssUnit.vh => true
  | _ => false

/-- Numeric content of the clamp(minPx px, preferred unit, maxPx px) string the
source emits (the preferred component is kept exact here; the source rounds it
to two decimals when printing). -/
structure ClampTriple where
  minPx : ℚ
  preferred : ℚ
  unit : CssUnit
  maxPx : ℚ
deriving DecidableEq, Repr

/-- Embedding of pixelsToViewport(pixels, unit, baseViewport). A baseViewport of
none models the null default; the source also falls back to the default when the
argument is 0 because 0 is falsy in JavaScript. -/
def pixelsToViewport (pixels : ℚ) (unit : CssUnit) (baseViewport : Option ℚ) :
    ClampTriple :=
  let fallback := if unitIncludesH unit then baseHeight else baseWidth
  let base := match baseViewport with
    | some b => if b = 0 then fallback else b
    | none => fallback
  { minPx := max (pixels * (1 / 2)) 8
    preferred := pixels / base * 100
    unit := unit
    maxPx := pixels * 2 }

/-- The spacing ladder of generateScaleProperties: for i in 1..10 the property
spacing-i is set to pixelsToViewport(8 * i, vmin) with spacingBase = 8. -/
def spacingProperty (i : ℕ) : ClampTriple :=
  pixelsToViewport (8 * (i : ℚ)) CssUnit.vmin none

/-! ## Text fitter (intelligentTextFit)

The host rendering surface is modelled as an oracle meas : ℕ → ℚ × ℚ giving
the (scrollWidth, scrollHeight) pair observed at the k-th measurement the
function performs; this covers arbitrary, even adversarial, host behaviour.
Style mutations (whiteSpace, fontSize, lineHeight writes) affect only the host,
so they are tracked implicitly by the advancing read index. -/

inductive FitMethod where
  | wordWrap
  | fontReduction
  | hybrid
deriving DecidableEq, Repr

/-- Option object of intelligentTextFit with the source defaults. maxReduction
is the retention fraction of the source (do not go below maxReduction of the
original size); respectLineHeight only drives a style write and has no effect
on the returned outcome. -/
structure FitOptions where
  maxReduction : ℚ := 7 / 10
  minFontSize : ℚ := 12
  preferWordWrap : Bool := true
  respectLineHeight : Bool := true
  step : ℚ := 1 / 50
deriving DecidableEq, Repr

/-- Inputs the function reads from the element before fitting: the computed
font size, the client box, and whether textContent contains a space. -/
structure FitInput where
  originalFontSize : ℚ
  containerWidth : ℚ
  containerHeight : ℚ
  textHasWhitespace : Bool
deriving DecidableEq, Repr

/-- Returned object: method, fontSize, reduction, fits, attempts. The early
word-wrap return of the source carries no attempts field; it is modelled as 0. -/
structure FitOutcome where
  method : FitMethod
  fontSize : ℚ
  reduction : ℚ
  fits : Bool
  attempts : ℕ
deriving DecidableEq, Repr

structure LoopResult where
  size : ℚ
  attempts : ℕ
  nextRead : ℕ
deriving DecidableEq, Repr

/-- The while loop of intelligentTextFit. Every evaluation of the condition
reads element.scrollWidth once (one oracle read); the bound maxAttempts = 50 is
hardcoded in the source, so fuel 51 is enough for the fuel guard never to be
the reason the loop stops. -/
def shrinkLoop (meas : ℕ → ℚ × ℚ) (containerWidth minAllowedSize step : ℚ) :
    ℕ → ℚ → ℕ → ℕ → LoopResult
  | 0, size, attempts, k => ⟨size, attempts, k⟩
  | fuel + 1, size, attempts, k =>
    if containerWidth < (meas k).1 ∧ minAllowedSize < size ∧ attempts < 50 then
      shrinkLoop meas containerWidth minAllowedSize step fuel
        (size * (1 - step)) (attempts + 1) (k + 1)
    else
      ⟨size, attempts, k + 1⟩

/-- Font-reduction phase of intelligentTextFit starting at oracle index k:
the loop, the post-loop width-only fits check, the conditional wrap
re-enable (a pure style write), and the returned object whose fits field
re-measures both axes. Returns the outcome and the next unused oracle index. -/
def fitReduceAux (meas : ℕ → ℚ × ℚ) (inp : FitInput) (opts : FitOptions)
    (k : ℕ) : FitOutcome × ℕ :=
  let minAllowedSize := max opts.minFontSize (inp.originalFontSize * opts.maxReduction)
  let r := shrinkLoop meas inp.containerWidth minAllowedSize opts.step 51
    inp.originalFontSize 0 k
  let fitsW := decide ((meas r.nextRead).1 ≤ inp.containerWidth)
  let finalMeas := meas (r.nextRead + 1)
  ({ method := if fitsW then FitMethod.fontReduction else FitMethod.hybrid
     fontSize := r.size
     reduction := (inp.originalFontSize - r.size) / inp.originalFontSize
     fits := decide (finalMeas.1 ≤ inp.containerWidth ∧
       finalMeas.2 ≤ inp.containerHeight)
     attempts := r.attempts }, r.nextRead + 2)

/-- Embedding of intelligentTextFit(element, options) together with the number
of oracle reads it performs. The word-wrap attempt runs only when
preferWordWrap is set and the text contains a space; if its measurement fits
both axes the function returns early with method word-wrap. -/
def intelligentTextFitAux (meas : ℕ → ℚ × ℚ) (inp : FitInput)
    (opts : FitOptions) : FitOutcome × ℕ :=
  if opts.preferWordWrap && inp.textHasWhitespace then
    if (meas 0).1 ≤ inp.containerWidth ∧ (meas 0).2 ≤ inp.containerHeight then
      ({ method := FitMethod.wordWrap
         fontSize := inp.originalFontSize
         reduction := 0
         fits := true
         attempts := 0 }, 1)
    else
      fitReduceAux meas inp opts 1
  else
    fitReduceAux meas inp opts 0

def intelligentTextFit (meas : ℕ → ℚ × ℚ) (inp : FitInput)
    (opts : FitOptions) : FitOutcome :=
  (intelligentTextFitAux meas inp opts).1

/-! ## Change observer (createResponsiveObserver)

Discrete-event model of the debounce protocol: scheduleResize performs
clearTimeout plus setTimeout, so the handle owns at most one pending deadline;
a resize signal schedules at time + debounceMs, an orientationchange signal at
time + debounceMs + 100; the cleanup function clears the pending timer and
removes both listeners. When a pending timer fires, the callback receives the
result computed from the viewport as it is at fire time. The model records the
viewport passed to each callback invocation. -/

inductive Ev where
  | resize (time : ℕ) (vp : ℚ × ℚ)
  | orient (time : ℕ) (vp : ℚ × ℚ)
  | release (time : ℕ)
deriving DecidableEq, Repr

def Ev.time : Ev → ℕ
  | Ev.resize t _ => t
  | Ev.orient t _ => t
  | Ev.release t => t

def Ev.isSignal : Ev → Bool
  | Ev.release _ => false
  | _ => true

/-- Viewport a signal carries (dummy for release, which carries none). -/
def sigVp : Ev → ℚ × ℚ
  | Ev.resize _ vp => vp
  | Ev.orient _ vp => vp
  | Ev.release _ => (0, 0)

/-- Deadline the source schedules for a signal: debounceMs after a resize,
debounceMs + 100 after an orientation change (the settle delay). -/
def deadlineOf (debounceMs : ℕ) : Ev → ℕ
  | Ev.resize t _ => t + debounceMs
  | Ev.orient t _ => t + debounceMs + 100
  | Ev.release t => t

structure ObsState where
  pending : Option ℕ
  released : Bool
  viewport : ℚ × ℚ
  calls : List (ℚ × ℚ)
deriving DecidableEq, Repr

/-- State right after createResponsiveObserver returns: the initial
handleResize() call has scheduled a timer debounceMs from creation. -/
def createObserver (debounceMs t0 : ℕ) (vp0 : ℚ × ℚ) : ObsState :=
  { pending := some (t0 + debounceMs), released := false, viewport := vp0,
    calls := [] }

/-- Fire the pending timer if its deadline has been reached by time t. -/
def fireIfDue (s : ObsState) (t : ℕ) : ObsState :=
  match s.pending with
  | some d =>
    if d ≤ t then
      { s with pending := none, calls := s.calls ++ [s.viewport] }
    else s
  | none => s

/-- Process one event: a due timer fires first, then, unless the handle was
released (listeners removed), a signal replaces the pending deadline and a
release clears the timer and detaches; release is idempotent. -/
def obsStep (debounceMs : ℕ) (s : ObsState) (e : Ev) : ObsState :=
  let s := fireIfDue s e.time
  if s.released then s
  else
    match e with
    | Ev.resize t vp => { s with viewport := vp, pending := some (t + debounceMs) }
    | Ev.orient t vp => { s with viewport := vp, pending := some (t + debounceMs + 100) }
    | Ev.release _ => { s with pending := none, released := true }

/-- End of the trace: a still-pending timer eventually fires (quiet period). -/
def flushObs (s : ObsState) : ObsState :=
  match s.pending with
  | some _ => { s with pending := none, calls := s.calls ++ [s.viewport] }
  | none => s

def runToEnd (debounceMs : ℕ) (s : ObsState) (evs : List Ev) : ObsState :=
  flushObs (List.foldl (obsStep debounceMs) s evs)

/-- A burst chained to a previous signal: every event is a signal arriving
strictly before the deadline the previous signal scheduled. -/
def chainedBurst (debounceMs : ℕ) : Ev → List Ev → Bool
  | _, [] => true
  | prev, e :: evs =>
    e.isSignal && decide (e.time < deadlineOf debounceMs prev) &&
      chainedBurst debounceMs e evs

/-- Last event of a burst (the one whose viewport the trailing call carries). -/
def lastEv : Ev → List Ev → Ev
  | prev, [] => prev
  | _, e :: evs => lastEv e evs

/-! ## Concrete instances used in counterexamples and witnesses -/

/-- A host whose content never fits: every measurement reports a 100 by 100
scroll box. -/
def measOverflow : ℕ → ℚ × ℚ := fun _ => (100, 100)

/-- A host whose content always fits inside a 10 by 10 box. -/
def measSnug : ℕ → ℚ × ℚ := fun _ => (5, 5)

def c1Inp : FitInput :=
  { originalFontSize := 100, containerWidth := 10, containerHeight := 10,
    textHasWhitespace := false }

def c1Opts : FitOptions :=
  { maxReduction := 1 / 2, minFontSize := 99, preferWordWrap := false,
    respectLineHeight := true, step := 1 / 2 }

def c5Inp : FitInput :=
  { originalFontSize := 36, containerWidth := 10, containerHeight := 10,
    textHasWhitespace := false }

def c5Opts : FitOptions :=
  { maxReduction := 1 / 2, minFontSize := 12, preferWordWrap := false,
    respectLineHeight := true, step := 1 / 2 }

/-- Observer state with a timer pending at deadline 150 (a fresh handle). -/
def obsPendingState : ObsState :=
  { pending := some 150, released := false, viewport := (640, 480), calls := [] }

/-- Observer state with no pending timer. -/
def obsIdleState : ObsState :=
  { pending := none, released := false, viewport := (640, 480), calls := [] }

/-! ## Helper lemmas -/

theorem shrinkLoop_attempts_le (meas : ℕ → ℚ × ℚ) (cw m st : ℚ) (fuel : ℕ) :
    ∀ (size : ℚ) (a k : ℕ), a ≤ 50 →
      (shrinkLoop meas cw m st fuel size a k).attempts ≤ 50 := by
  induction fuel with
  | zero => intro size a k ha; simpa [shrinkLoop] using ha
  | succ n ih =>
    intro size a k ha
    simp only [shrinkLoop]
    split_ifs with h
    · exact ih _ _ _ (by omega)
    · simpa using ha

theorem shrinkLoop_size_bounds (meas : ℕ → ℚ × ℚ) (cw m st : ℚ)
    (hst0 : 0 < st) (hst1 : st < 1) (fuel : ℕ) :
    ∀ (size : ℚ) (a k : ℕ), 0 < size →
      (shrinkLoop meas cw m st fuel size a k).size ≤ size ∧
      ((shrinkLoop meas cw m st fuel size a k).size = size ∨
        m * (1 - st) < (shrinkLoop meas cw m st fuel size a k).size) := by
  induction fuel with
  | zero => intro size a k hs; simp [shrinkLoop]
  | succ n ih =>
    intro size a k hs
    simp only [shrinkLoop]
    split_ifs with h
    · have h1s : (0 : ℚ) < 1 - st := by linarith
      have hs2 : 0 < size * (1 - st) := mul_pos hs h1s
      obtain ⟨hle, hor⟩ := ih (size * (1 - st)) (a + 1) (k + 1) hs2
      have hstep : size * (1 - st) ≤ size := by nlinarith
      refine ⟨le_trans hle hstep, Or.inr ?_⟩
      rcases hor with heq | hlt
      · rw [heq]
        exact mul_lt_mul_of_pos_right h.2.1 h1s
      · exact hlt
    · simp

theorem fitReduceAux_fontSize_bounds (meas : ℕ → ℚ × ℚ) (inp : FitInput)
    (opts : FitOptions) (k : ℕ) (horig : 0 < inp.originalFontSize)
    (hst0 : 0 < opts.step) (hst1 : opts.step < 1) :
    (fitReduceAux meas inp opts k).1.fontSize ≤ inp.originalFontSize ∧
    min inp.originalFontSize
        (max opts.minFontSize (inp.originalFontSize * opts.maxReduction) *
          (1 - opts.step)) ≤
      (fitReduceAux meas inp opts k).1.fontSize := by
  obtain ⟨hle, hor⟩ := shrinkLoop_size_bounds meas inp.containerWidth
    (max opts.minFontSize (inp.originalFontSize * opts.maxReduction)) opts.step
    hst0 hst1 51 inp.originalFontSize 0 k horig
  simp only [fitReduceAux]
  constructor
  · exact hle
  · rcases hor with heq | hlt
    · rw [heq]
      exact min_le_left _ _
    · exact le_trans (min_le_right _ _) (le_of_lt hlt)

theorem obsRun_absorbed (debounceMs : ℕ) (evs : List Ev) :
    ∀ (s : ObsState), s.released = true → s.pending = none →
      List.foldl (obsStep debounceMs) s evs = s := by
  induction evs with
  | nil => intro s _ _; rfl
  | cons e evs ih =>
    intro s hrel hp
    have hstep : obsStep debounceMs s e = s := by
      simp [obsStep, fireIfDue, hp, hrel]
    rw [List.foldl_cons, hstep]
    exact ih s hrel hp

theorem obsRun_chained (debounceMs : ℕ) (evs : List Ev) :
    ∀ (prev : Ev) (s : ObsState), s.released = false →
      s.pending = some (deadlineOf debounceMs prev) →
      s.viewport = sigVp prev →
      chainedBurst debounceMs prev evs = true →
      List.foldl (obsStep debounceMs) s evs =
        { pending := some (deadlineOf debounceMs (lastEv prev evs)),
          released := false, viewport := sigVp (lastEv prev evs),
          calls := s.calls } := by
  induction evs with
  | nil =>
    intro prev s hrel hp hv _
    obtain ⟨p, r, v, cs⟩ := s
    simp_all [lastEv]
  | cons e evs ih =>
    intro prev s hrel hp hv hchain
    simp only [chainedBurst, Bool.and_eq_true, decide_eq_true_eq] at hchain
    obtain ⟨⟨hsig, hlt⟩, hrest⟩ := hchain
    have hne : ¬ (deadlineOf debounceMs prev ≤ e.time) := by omega
    rw [List.foldl_cons]
    simp only [lastEv]
    cases e with
    | resize t vp =>
      have hstep : obsStep debounceMs s (Ev.resize t vp) =
          { pending := some (t + debounceMs), released := false,
            viewport := vp, calls := s.calls } := by
        simp only [Ev.time] at hne
        simp [obsStep, fireIfDue, hp, hrel, hne, Ev.time]
      rw [hstep]
      exact ih (Ev.resize t vp) _ rfl rfl rfl hrest
    | orient t vp =>
      have hstep : obsStep debounceMs s (Ev.orient t vp) =
          { pending := some (t + debounceMs + 100), released := false,
            viewport := vp, calls := s.calls } := by
        simp only [Ev.time] at hne
        simp [obsStep, fireIfDue, hp, hrel, hne, Ev.time]
      rw [hstep]
      exact ih (Ev.orient t vp) _ rfl rfl rfl hrest
    | release t => simp [Ev.isSignal] at hsig

theorem fitReduceAux_method_iff (meas : ℕ → ℚ × ℚ) (inp : FitInput)
    (opts : FitOptions) (k : ℕ) :
    ((fitReduceAux meas inp opts k).1.method = FitMethod.hybrid ↔
      inp.containerWidth < (meas (shrinkLoop meas inp.containerWidth
          (max opts.minFontSize (inp.originalFontSize * opts.maxReduction))
          opts.step 51 inp.originalFontSize 0 k).nextRead).1) := by
  simp only [fitReduceAux]
  split_ifs with h
  · simp only [decide_eq_true_eq] at h
    simp [not_lt.mpr h]
  · simp only [decide_eq_true_eq, not_le] at h
    simp [h]

/-! ## Claim theorems -/

/-- C1 (amended): for any measurement sequence and policy with
minFontSizePixels positive, retention fraction maxReduction in [0,1) of the
original (that is, maxReductionFraction in (0,1]), stepFraction in (0,1) and a
positive original size, the final font size never exceeds the original, and it
is bounded below by min(originalSize, floor * (1 - stepFraction)) where
floor = max(minFontSizePixels, originalSize * maxReduction): the loop tests the
floor before shrinking, so it can undershoot the floor by at most one
multiplicative step. -/
theorem intelligentTextFit_fontSize_bounds (meas : ℕ → ℚ × ℚ) (inp : FitInput)
    (opts : FitOptions) (horig : 0 < inp.originalFontSize)
    (_hmin : 0 < opts.minFontSize) (hst0 : 0 < opts.step) (hst1 : opts.step < 1)
    (_hmr0 : 0 ≤ opts.maxReduction) (_hmr1 : opts.maxReduction < 1) :
    (intelligentTextFit meas inp opts).fontSize ≤ inp.originalFontSize ∧
    min inp.originalFontSize
        (max opts.minFontSize (inp.originalFontSize * opts.maxReduction) *
          (1 - opts.step)) ≤ (intelligentTextFit meas inp opts).fontSize := by
  unfold intelligentTextFit intelligentTextFitAux
  split_ifs with h1 h2
  · exact ⟨le_refl _, min_le_left _ _⟩
  · exact fitReduceAux_fontSize_bounds meas inp opts 1 horig hst0 hst1
  · exact fitReduceAux_fontSize_bounds meas inp opts 0 horig hst0 hst1

/-- C1 counterexample: with original size 100, floor max(99, 100 * (1/2)) = 99
and step 1/2, a single shrink step lands at 50, strictly below the floor 99,
on a host that always reports overflow; every policy range of the claim is
satisfied, refuting finalFontSize ≥ floor. -/
theorem intelligentTextFit_floor_counterexample :
    0 < c1Inp.originalFontSize ∧ 0 < c1Opts.minFontSize ∧ 0 < c1Opts.step ∧
    c1Opts.step < 1 ∧ 0 ≤ c1Opts.maxReduction ∧ c1Opts.maxReduction < 1 ∧
    (intelligentTextFit measOverflow c1Inp c1Opts).fontSize <
      max c1Opts.minFontSize (c1Inp.originalFontSize * c1Opts.maxReduction) := by
  norm_num [intelligentTextFit, intelligentTextFitAux, fitReduceAux, shrinkLoop,
    measOverflow, c1Inp, c1Opts, max_def]

/-- Witness instantiating the C1 bounds at a concrete run. -/
theorem intelligentTextFit_fontSize_bounds_witness :
    0 < c1Inp.originalFontSize ∧ 0 < c1Opts.minFontSize ∧ 0 < c1Opts.step ∧
    c1Opts.step < 1 ∧ 0 ≤ c1Opts.maxReduction ∧ c1Opts.maxReduction < 1 ∧
    ((intelligentTextFit measOverflow c1Inp c1Opts).fontSize ≤
        c1Inp.originalFontSize ∧
      min c1Inp.originalFontSize
          (max c1Opts.minFontSize (c1Inp.originalFontSize * c1Opts.maxReduction) *
            (1 - c1Opts.step)) ≤
        (intelligentTextFit measOverflow c1Inp c1Opts).fontSize) :=
  ⟨by norm_num [c1Inp], by norm_num [c1Opts], by norm_num [c1Opts],
   by norm_num [c1Opts], by norm_num [c1Opts], by norm_num [c1Opts],
   intelligentTextFit_fontSize_bounds measOverflow c1Inp c1Opts
     (by norm_num [c1Inp]) (by norm_num [c1Opts]) (by norm_num [c1Opts])
     (by norm_num [c1Opts]) (by norm_num [c1Opts]) (by norm_num [c1Opts])⟩

/-- C5 (amended): when the reduction loop ends with the box still overflowing
in width, the reported method is hybrid regardless of preferWordWrap (wrapping
styles are re-applied only when preferWordWrap is true, but the label does not
depend on it); the method is font-reduction exactly when the post-loop width
measurement fits. -/
theorem textFit_method_label :
    (∀ (meas : ℕ → ℚ × ℚ) (inp : FitInput) (opts : FitOptions),
      opts.preferWordWrap = false →
      inp.containerWidth < (meas (shrinkLoop meas inp.containerWidth
          (max opts.minFontSize (inp.originalFontSize * opts.maxReduction))
          opts.step 51 inp.originalFontSize 0 0).nextRead).1 →
      (intelligentTextFit meas inp opts).method = FitMethod.hybrid) ∧
    (∀ (meas : ℕ → ℚ × ℚ) (inp : FitInput) (opts : FitOptions) (k : ℕ),
      ((fitReduceAux meas inp opts k).1.method = FitMethod.hybrid ↔
        inp.containerWidth < (meas (shrinkLoop meas inp.containerWidth
            (max opts.minFontSize (inp.originalFontSize * opts.maxReduction))
            opts.step 51 inp.originalFontSize 0 k).nextRead).1)) := by
  constructor
  · intro meas inp opts hpw hov
    have : intelligentTextFit meas inp opts = (fitReduceAux meas inp opts 0).1 := by
      simp [intelligentTextFit, intelligentTextFitAux, hpw]
    rw [this]
    exact (fitReduceAux_method_iff meas inp opts 0).mpr hov
  · exact fitReduceAux_method_iff

/-- C5 counterexample: with preferWordWrap set to false and a host that always
overflows, the loop stops at the floor and the reported method is hybrid, not
font-reduction as the claim requires for preferWordWrap = false. -/
theorem hybrid_without_wrap_counterexample :
    c5Opts.preferWordWrap = false ∧
    (intelligentTextFit measOverflow c5Inp c5Opts).fits = false ∧
    (intelligentTextFit measOverflow c5Inp c5Opts).method = FitMethod.hybrid := by
  norm_num [intelligentTextFit, intelligentTextFitAux, fitReduceAux, shrinkLoop,
    measOverflow, c5Inp, c5Opts, max_def]

/-- Witness instantiating the C5 method characterization at a concrete run. -/
theorem textFit_method_label_witness :
    (c5Opts.preferWordWrap = false ∧
      c5Inp.containerWidth < (measOverflow (shrinkLoop measOverflow
          c5Inp.containerWidth
          (max c5Opts.minFontSize (c5Inp.originalFontSize * c5Opts.maxReduction))
          c5Opts.step 51 c5Inp.originalFontSize 0 0).nextRead).1 ∧
      (intelligentTextFit measOverflow c5Inp c5Opts).method = FitMethod.hybrid) ∧
    ((fitReduceAux measOverflow c5Inp c5Opts 0).1.method = FitMethod.hybrid ↔
      c5Inp.containerWidth < (measOverflow (shrinkLoop measOverflow
          c5Inp.containerWidth
          (max c5Opts.minFontSize (c5Inp.originalFontSize * c5Opts.maxReduction))
          c5Opts.step 51 c5Inp.originalFontSize 0 0).nextRead).1) :=
  ⟨⟨rfl,
    by norm_num [shrinkLoop, measOverflow, c5Inp, c5Opts, max_def],
    textFit_method_label.1 measOverflow c5Inp c5Opts rfl
      (by norm_num [shrinkLoop, measOverflow, c5Inp, c5Opts, max_def])⟩,
   textFit_method_label.2 measOverflow c5Inp c5Opts 0⟩

/-- C6: for every input and every (possibly adversarial) measurement sequence,
the shrink loop performs at most 50 iterations (the hardcoded maxAttempts
bound), and the returned object always exists (the embedding is a total
function) with its fits field equal to the fit test of the last measurement
performed. -/
theorem textFit_bounded_iterations_and_final_fits (meas : ℕ → ℚ × ℚ)
    (inp : FitInput) (opts : FitOptions) :
    (intelligentTextFit meas inp opts).attempts ≤ 50 ∧
    ((intelligentTextFit meas inp opts).fits = true ↔
      ((meas ((intelligentTextFitAux meas inp opts).2 - 1)).1 ≤
          inp.containerWidth ∧
        (meas ((intelligentTextFitAux meas inp opts).2 - 1)).2 ≤
          inp.containerHeight)) := by
  unfold intelligentTextFit intelligentTextFitAux
  split_ifs with h1 h2
  · exact ⟨by norm_num, by simpa using h2⟩
  · constructor
    · simpa [fitReduceAux] using shrinkLoop_attempts_le meas inp.containerWidth
        (max opts.minFontSize (inp.originalFontSize * opts.maxReduction))
        opts.step 51 inp.originalFontSize 0 1 (by norm_num)
    · simp [fitReduceAux]
  · constructor
    · simpa [fitReduceAux] using shrinkLoop_attempts_le meas inp.containerWidth
        (max opts.minFontSize (inp.originalFontSize * opts.maxReduction))
        opts.step 51 inp.originalFontSize 0 0 (by norm_num)
    · simp [fitReduceAux]

/-- C4: for every viewport with positive width and height and every
orientation preference, the fitted rectangle is contained in the viewport and
the centering offsets are nonnegative. -/
theorem getOptimalDimensions_within_viewport (vw vh : ℚ) (pref : OrientationPref)
    (_hw : 0 < vw) (hh : 0 < vh) :
    0 ≤ (getOptimalDimensions vw vh pref).offsetX ∧
    0 ≤ (getOptimalDimensions vw vh pref).offsetY ∧
    (getOptimalDimensions vw vh pref).width ≤ vw ∧
    (getOptimalDimensions vw vh pref).height ≤ vh := by
  simp only [getOptimalDimensions, mkDimensions, baseAspect, baseWidth, baseHeight]
  split_ifs with hor hfit hfit <;> dsimp only
  · have h2 : (16 / 9 : ℚ) * vh ≤ vw := (le_div_iff₀ hh).mp hfit
    exact ⟨by linarith, by linarith, by linarith, le_refl _⟩
  · have h2 : vw < (16 / 9 : ℚ) * vh := (div_lt_iff₀ hh).mp (not_le.mp hfit)
    have h3 : vw / (16 / 9 : ℚ) = vw * (9 / 16) := by ring
    rw [h3]
    exact ⟨by linarith, by linarith, le_refl _, by linarith⟩
  · have h2 : (1080 / 1920 : ℚ) * vh ≤ vw := (le_div_iff₀ hh).mp hfit
    exact ⟨by linarith, by linarith, by linarith, le_refl _⟩
  · have h2 : vw < (1080 / 1920 : ℚ) * vh := (div_lt_iff₀ hh).mp (not_le.mp hfit)
    have h3 : vw / (1080 / 1920 : ℚ) = vw * (1920 / 1080) := by ring
    rw [h3]
    exact ⟨by linarith, by linarith, le_refl _, by linarith⟩

/-- Witness for C4 at a concrete viewport. -/
theorem getOptimalDimensions_within_viewport_witness :
    (0 : ℚ) < 800 ∧ (0 : ℚ) < 600 ∧
    (0 ≤ (getOptimalDimensions 800 600 OrientationPref.auto).offsetX ∧
      0 ≤ (getOptimalDimensions 800 600 OrientationPref.auto).offsetY ∧
      (getOptimalDimensions 800 600 OrientationPref.auto).width ≤ 800 ∧
      (getOptimalDimensions 800 600 OrientationPref.auto).height ≤ 600) :=
  ⟨by norm_num, by norm_num,
   getOptimalDimensions_within_viewport 800 600 OrientationPref.auto
     (by norm_num) (by norm_num)⟩

/-- C2 (amended): the scale is min(fittedWidth / referenceWidth,
fittedHeight / referenceHeight) computed against the UNROTATED 1920 x 1080
reference in both orientations, and this always equals
fittedWidth / referenceWidth; in portrait it is not fittedWidth
divided by the reference height. -/
theorem scale_unrotated_reference (vw vh : ℚ) (pref : OrientationPref)
    (hw : 0 < vw) (hh : 0 < vh) :
    (getOptimalDimensions vw vh pref).scale =
      min ((getOptimalDimensions vw vh pref).width / baseWidth)
        ((getOptimalDimensions vw vh pref).height / baseHeight) ∧
    (getOptimalDimensions vw vh pref).scale =
      (getOptimalDimensions vw vh pref).width / baseWidth := by
  simp only [getOptimalDimensions, mkDimensions, baseAspect, baseWidth, baseHeight]
  split_ifs with hor hfit hfit <;> dsimp only <;> refine ⟨rfl, ?_⟩
  · have heq : vh * (16 / 9) / 1920 = vh / 1080 := by ring
    rw [heq, min_self]
  · have heq : vw / (16 / 9 : ℚ) / 1080 = vw / 1920 := by ring
    rw [heq, min_self]
  · exact min_eq_left (by linarith)
  · exact min_eq_left (by linarith)

/-- C2 counterexample: at the portrait viewport 1080 x 1920 the fitted width
is 1080 and the returned scale is 9/16 = 1080/1920, not
fittedWidth / referenceHeight = 1080/1080 = 1 as the rotated-reference claim
requires. -/
theorem scale_rotated_counterexample :
    (getOptimalDimensions 1080 1920 OrientationPref.auto).orientation =
      Orientation.portrait ∧
    (getOptimalDimensions 1080 1920 OrientationPref.auto).scale ≠
      (getOptimalDimensions 1080 1920 OrientationPref.auto).width / baseHeight := by
  norm_num [getOptimalDimensions, mkDimensions, baseAspect, baseWidth,
    baseHeight, min_def]
  simp
  norm_num

/-- Witness for C2 at a concrete viewport. -/
theorem scale_unrotated_reference_witness :
    (0 : ℚ) < 800 ∧ (0 : ℚ) < 600 ∧
    ((getOptimalDimensions 800 600 OrientationPref.auto).scale =
        min ((getOptimalDimensions 800 600 OrientationPref.auto).width / baseWidth)
          ((getOptimalDimensions 800 600 OrientationPref.auto).height / baseHeight) ∧
      (getOptimalDimensions 800 600 OrientationPref.auto).scale =
        (getOptimalDimensions 800 600 OrientationPref.auto).width / baseWidth) :=
  ⟨by norm_num, by norm_num,
   scale_unrotated_reference 800 600 OrientationPref.auto (by norm_num)
     (by norm_num)⟩

/-- C3 (amended): with preference Auto the resolved orientation is landscape
exactly when viewport.width / viewport.height > 1; when the aspect ratio is
exactly 1 the strict comparison fails and the tie resolves to PORTRAIT, not
landscape. -/
theorem auto_orientation_resolution (vw vh : ℚ) (_hw : 0 < vw) (hh : 0 < vh) :
    ((getOptimalDimensions vw vh OrientationPref.auto).orientation =
        Orientation.landscape ↔ 1 < vw / vh) ∧
    (vw = vh →
      (getOptimalDimensions vw vh OrientationPref.auto).orientation =
        Orientation.portrait) := by
  simp only [getOptimalDimensions, mkDimensions,
    (by simp : ¬ (OrientationPref.auto = OrientationPref.landscape)),
    eq_self_iff_true, true_and, false_or]
  split_ifs with hor hfit hfit <;> dsimp only
  · refine ⟨by simp [hor], fun heq => ?_⟩
    rw [heq, div_self hh.ne'] at hor
    exact absurd hor (lt_irrefl 1)
  · refine ⟨by simp [hor], fun heq => ?_⟩
    rw [heq, div_self hh.ne'] at hor
    exact absurd hor (lt_irrefl 1)
  · exact ⟨by simp [hor], fun _ => rfl⟩
  · exact ⟨by simp [hor], fun _ => rfl⟩

/-- C3 counterexample: at the square viewport 100 x 100 the aspect ratio is
exactly 1 and the resolved orientation is portrait, refuting the claim that
the tie resolves to landscape. -/
theorem tie_resolves_portrait_counterexample :
    (getOptimalDimensions 100 100 OrientationPref.auto).orientation ≠
      Orientation.landscape ∧
    (getOptimalDimensions 100 100 OrientationPref.auto).orientation =
      Orientation.portrait := by
  norm_num [getOptimalDimensions, mkDimensions, baseAspect, baseWidth, baseHeight]
  simp

/-- Witness for C3 at a concrete non-square viewport. -/
theorem auto_orientation_resolution_witness :
    (0 : ℚ) < 1200 ∧ (0 : ℚ) < 800 ∧
    (((getOptimalDimensions 1200 800 OrientationPref.auto).orientation =
        Orientation.landscape ↔ 1 < (1200 : ℚ) / 800) ∧
      ((1200 : ℚ) = 800 →
        (getOptimalDimensions 1200 800 OrientationPref.auto).orientation =
          Orientation.portrait)) :=
  ⟨by norm_num, by norm_num,
   auto_orientation_resolution 1200 800 (by norm_num) (by norm_num)⟩

/-- C9 (amended): the solver performs no viewport validation: a degenerate
viewport of width 0 still produces a numeric fit result (a zero-sized
portrait rectangle with offsets 0 and height/2) rather than a typed
InvalidViewport failure; no failure path exists in the function. -/
theorem degenerate_viewport_numeric_result (vh : ℚ) :
    getOptimalDimensions 0 vh OrientationPref.auto =
      { width := 0, height := 0, scale := 0,
        orientation := Orientation.portrait, offsetX := 0,
        offsetY := vh / 2 } := by
  simp only [getOptimalDimensions, mkDimensions,
    (by simp : ¬ (OrientationPref.auto = OrientationPref.landscape)),
    eq_self_iff_true, true_and, false_or]
  split_ifs with h1 h2 h2
  · rw [zero_div] at h1
    norm_num at h1
  · rw [zero_div] at h1
    norm_num at h1
  · rw [zero_div] at h2
    norm_num [baseHeight, baseWidth] at h2
  · simp [zero_div, baseHeight, baseWidth, baseAspect]

/-- C9 counterexample: at viewport (0, 100) the function returns the concrete
numeric record below; it does not fail with InvalidViewport. -/
theorem degenerate_viewport_counterexample :
    getOptimalDimensions 0 100 OrientationPref.auto =
      { width := 0, height := 0, scale := 0,
        orientation := Orientation.portrait, offsetX := 0, offsetY := 50 } := by
  norm_num [getOptimalDimensions, mkDimensions, baseAspect, baseWidth,
    baseHeight, min_def]
  simp

/-- C10: the fitted rectangle has exactly the orientation-appropriate
reference aspect ratio: width = height * (1920/1080) in landscape and
width = height * (1080/1920) in portrait. -/
theorem fitted_rect_aspect (vw vh : ℚ) (pref : OrientationPref)
    (_hw : 0 < vw) (_hh : 0 < vh) :
    ((getOptimalDimensions vw vh pref).orientation = Orientation.landscape →
      (getOptimalDimensions vw vh pref).width =
        (getOptimalDimensions vw vh pref).height * (1920 / 1080)) ∧
    ((getOptimalDimensions vw vh pref).orientation = Orientation.portrait →
      (getOptimalDimensions vw vh pref).width =
        (getOptimalDimensions vw vh pref).height * (1080 / 1920)) := by
  simp only [getOptimalDimensions, mkDimensions, baseAspect, baseWidth, baseHeight]
  split_ifs with hor hfit hfit <;> dsimp only <;> constructor <;> intro h
  all_goals first | ring1 | exact h.elim

/-- Witness for C10 at a concrete viewport. -/
theorem fitted_rect_aspect_witness :
    (0 : ℚ) < 800 ∧ (0 : ℚ) < 600 ∧
    (((getOptimalDimensions 800 600 OrientationPref.auto).orientation =
          Orientation.landscape →
        (getOptimalDimensions 800 600 OrientationPref.auto).width =
          (getOptimalDimensions 800 600 OrientationPref.auto).height *
            (1920 / 1080)) ∧
      ((getOptimalDimensions 800 600 OrientationPref.auto).orientation =
          Orientation.portrait →
        (getOptimalDimensions 800 600 OrientationPref.auto).width =
          (getOptimalDimensions 800 600 OrientationPref.auto).height *
            (1080 / 1920))) :=
  ⟨by norm_num, by norm_num,
   fitted_rect_aspect 800 600 OrientationPref.auto (by norm_num) (by norm_num)⟩

/-- C8 (amended): spacing step i is the clamp triple with floor
max(baseSpacing * i * 0.5, 8), preferred value (baseSpacing * i / 1920) * 100
in vmin units, and ceiling baseSpacing * i * 2, with baseSpacing = 8: the
source clamps the floor at 8 pixels and uses a 200 percent ceiling, not the
150 percent ceiling of the claim. -/
theorem spacing_step_formula (i : ℕ) (_h1 : 1 ≤ i) (_h2 : i ≤ 10) :
    spacingProperty i =
      { minPx := max (8 * (i : ℚ) * (1 / 2)) 8,
        preferred := 8 * (i : ℚ) / 1920 * 100,
        unit := CssUnit.vmin,
        maxPx := 8 * (i : ℚ) * 2 } := rfl

/-- C8 counterexample: at i = 1 the emitted floor is 8 (not 8 * 1 * 0.5 = 4)
and the ceiling is 16 (not 8 * 1 * 1.5 = 12). -/
theorem spacing_step_counterexample :
    ¬ ((spacingProperty 1).minPx = 8 * 1 * (1 / 2) ∧
       (spacingProperty 1).maxPx = 8 * 1 * (3 / 2)) := by
  norm_num [spacingProperty, pixelsToViewport, unitIncludesH, max_def]

/-- Witness for C8 at step 3. -/
theorem spacing_step_formula_witness :
    1 ≤ 3 ∧ 3 ≤ 10 ∧
    spacingProperty 3 =
      { minPx := max (8 * (3 : ℚ) * (1 / 2)) 8,
        preferred := 8 * (3 : ℚ) / 1920 * 100,
        unit := CssUnit.vmin,
        maxPx := 8 * (3 : ℚ) * 2 } :=
  ⟨by norm_num, by norm_num, spacing_step_formula 3 (by norm_num) (by norm_num)⟩

/-- C7: releasing the handle before a pending debounce deadline cancels the
timer and detaches the listeners, so the callback is never invoked afterwards
on any continuation of the trace; and a burst of resize and orientation
signals, each arriving strictly before the deadline scheduled by its
predecessor, produces exactly one trailing callback carrying the viewport of
the last signal. -/
theorem observer_release_and_burst (debounceMs : ℕ) :
    (∀ (s : ObsState) (d t : ℕ) (evs : List Ev),
      s.released = false → s.pending = some d → t < d →
      (runToEnd debounceMs (obsStep debounceMs s (Ev.release t)) evs).calls =
        s.calls) ∧
    (∀ (s : ObsState) (e : Ev) (evs : List Ev),
      s.released = false → e.isSignal = true →
      (∀ d, s.pending = some d → e.time < d) →
      chainedBurst debounceMs e evs = true →
      (runToEnd debounceMs s (e :: evs)).calls =
        s.calls ++ [sigVp (lastEv e evs)]) := by
  constructor
  · intro s d t evs hrel hp ht
    have hne : ¬ (d ≤ t) := by omega
    have hstep : obsStep debounceMs s (Ev.release t) =
        { pending := none, released := true, viewport := s.viewport,
          calls := s.calls } := by
      simp [obsStep, fireIfDue, hp, hrel, hne, Ev.time]
    rw [runToEnd, hstep, obsRun_absorbed debounceMs evs _ rfl rfl]
    simp [flushObs]
  · intro s e evs hrel hsig h0 hchain
    rw [runToEnd, List.foldl_cons]
    have hstep : obsStep debounceMs s e =
        { pending := some (deadlineOf debounceMs e), released := false,
          viewport := sigVp e, calls := s.calls } := by
      have hfire : fireIfDue s e.time = s := by
        cases hp : s.pending with
        | none => simp [fireIfDue, hp]
        | some d =>
          have hlt := h0 d hp
          simp [fireIfDue, hp, show ¬ (d ≤ e.time) by omega]
      cases e with
      | resize t vp =>
        simp only [Ev.time] at hfire
        simp [obsStep, Ev.time, hfire, hrel, deadlineOf, sigVp]
      | orient t vp =>
        simp only [Ev.time] at hfire
        simp [obsStep, Ev.time, hfire, hrel, deadlineOf, sigVp]
      | release t => simp [Ev.isSignal] at hsig
    rw [hstep, obsRun_chained debounceMs evs e _ rfl rfl rfl hchain]
    simp [flushObs]

/-- Witness instantiating both C7 parts at concrete traces. -/
theorem observer_release_and_burst_witness :
    (obsPendingState.released = false ∧ obsPendingState.pending = some 150 ∧
      10 < 150 ∧
      (runToEnd 150 (obsStep 150 obsPendingState (Ev.release 10)) []).calls =
        []) ∧
    ((runToEnd 150 obsIdleState
        [Ev.resize 0 (800, 600), Ev.resize 50 (1024, 768)]).calls =
      [(1024, 768)]) :=
  ⟨⟨rfl, rfl, by norm_num,
    (observer_release_and_burst 150).1 obsPendingState 150 10 [] rfl rfl
      (by norm_num)⟩,
   (observer_release_and_burst 150).2 obsIdleState (Ev.resize 0 (800, 600))
     [Ev.resize 50 (1024, 768)] rfl rfl
     (fun d h => Option.noConfusion h) (by decide)⟩

end RaceDisplay
